import Mathlib

/-!
Verification development for `extract_last_frame.py`, a video last-frame
extractor built on an external decode/encode library (OpenCV).

The external library and the filesystem are modelled as an oracle
environment `Env`; the script's own control flow is embedded as pure Lean
functions that additionally return a trace of the library calls they
perform (`Event`), so that resource-release and call-order properties are
statable.
-/

set_option maxRecDepth 4000

/-- One decoded raster frame (`numpy` array in the source), abstracted to
its byte contents. -/
structure Frame where
  data : List Nat
deriving DecidableEq

/-- A `cv2.VideoCapture` handle: whether it opened, the reported
`CAP_PROP_FRAME_COUNT` (after `int(...)`), the result of a read performed
right after seeking the cursor to a given position, and the sequence of
frames obtainable by sequential reads from position 0. -/
structure Cap where
  isOpened : Bool
  frameCount : Int
  readAt : Int → Option Frame
  stream : List Frame

/-- Library / filesystem calls performed by the script, recorded in order. -/
inductive Event where
  | openAttempt (strategy : Nat)
  | getFrameCount
  | seek (pos : Int)
  | readFrame
  | release
  | imwriteCall
  | imencodeCall (ext : String)
  | rawWriteCall
deriving DecidableEq

/-- The oracle environment: filesystem existence, the three opening
strategies (`cv2.VideoCapture(path)`, `cv2.VideoCapture(path, CAP_FFMPEG)`,
and the Windows short-path mechanism), and the image-writing primitives.
`Except Unit` models a call that may raise an exception. -/
structure Env where
  pathExists : String → Bool
  directOpen : String → Cap
  ffmpegOpen : String → Cap
  shortPathAvail : Bool
  shortPathOf : String → Option String
  imwrite : String → Frame → Except Unit Bool
  imencode : String → Frame → Except Unit (Bool × List Nat)
  rawWrite : String → List Nat → Except Unit Unit

/-- Exceptions raised by `extract_last_frame` and caught by `main`. -/
inductive PyErr where
  | fileNotFound (msg : String)
  | valueError (msg : String)
  | other (msg : String)
deriving DecidableEq

deriving instance DecidableEq for Except

/-- Index of the last occurrence of `c` in a character list, if any
(Python `str.rfind`). -/
def rfindIdx (c : Char) : List Char → Option Nat
  | [] => none
  | a :: rest =>
    match rfindIdx c rest with
    | some i => some (i + 1)
    | none => if a = c then some 0 else none

/-- `pathlib.PurePath.name` for POSIX-style paths without trailing slash:
the component after the last `/`. -/
def pathName (p : String) : String :=
  match rfindIdx '/' p.data with
  | none => p
  | some i => ⟨p.data.drop (i + 1)⟩

/-- `pathlib.PurePath.suffix`: the part of the name from its last dot on,
provided that dot is neither the first nor the last character of the name. -/
def pathSuffix (p : String) : String :=
  let name := (pathName p).data
  match rfindIdx '.' name with
  | none => ""
  | some i => if 0 < i ∧ i < name.length - 1 then ⟨name.drop i⟩ else ""

/-- `pathlib.PurePath.stem`: the name with its `pathSuffix` removed. -/
def pathStem (p : String) : String :=
  let name := (pathName p).data
  match rfindIdx '.' name with
  | none => ⟨name⟩
  | some i => if 0 < i ∧ i < name.length - 1 then ⟨name.take i⟩ else ⟨name⟩

/-- `pathlib.PurePath.parent` for POSIX-style paths: everything before the
last `/`, or `.` when there is no `/`. -/
def pathParentStr (p : String) : String :=
  match rfindIdx '/' p.data with
  | none => "."
  | some 0 => "/"
  | some i => ⟨p.data.take i⟩

/-- `str(parent / child)` for the cases produced by `pathParentStr`. -/
def pathJoin (d n : String) : String :=
  if d = "." then n else if d = "/" then "/" ++ n else d ++ "/" ++ n

/-- ASCII lowercasing, modelling Python `str.lower()` on the extensions
that occur here. -/
def strLower (s : String) : String :=
  ⟨s.data.map Char.toLower⟩

/-- Lines 37–70 of `extract_last_frame.py` (`open_video_chinese_path`):
try a direct open, then an open with the FFMPEG backend requested
explicitly, then — only when the platform mechanism is available — resolve
the short (8.3 alias) path and open that; the cap of the last attempt is
returned even when nothing opened. -/
def open_video_chinese_path (env : Env) (video_path : String) : Cap × List Event :=
  let cap := env.directOpen video_path
  if cap.isOpened then (cap, [Event.openAttempt 0])
  else
    let cap := env.ffmpegOpen video_path
    if cap.isOpened then (cap, [Event.openAttempt 0, Event.openAttempt 1])
    else
      if env.shortPathAvail then
        match env.shortPathOf video_path with
        | some sp =>
          let cap2 := env.directOpen sp
          (cap2, [Event.openAttempt 0, Event.openAttempt 1, Event.openAttempt 2])
        | none => (cap, [Event.openAttempt 0, Event.openAttempt 1])
      else (cap, [Event.openAttempt 0, Event.openAttempt 1])

/-- Lines 98–100 of the source: the encode format for the `imencode`
fallback — the lowercased suffix of the output path, or `.png` when the
path has no suffix. -/
def chooseExt (output_path : String) : String :=
  let ext := strLower (pathSuffix output_path)
  if ext = "" then ".png" else ext

/-- Lines 88–113 of the source (`save_image_chinese_path`): try
`cv2.imwrite` (exceptions swallowed); on failure encode with `imencode`
using `chooseExt` and write the bytes through a raw file handle, returning
`false` if any of those steps fails or raises. -/
def save_image_chinese_path (env : Env) (image : Frame) (output_path : String) :
    Bool × List Event :=
  match env.imwrite output_path image with
  | Except.ok true => (true, [Event.imwriteCall])
  | _ =>
    let ext := chooseExt output_path
    match env.imencode ext image with
    | Except.error _ => (false, [Event.imwriteCall, Event.imencodeCall ext])
    | Except.ok (false, _) => (false, [Event.imwriteCall, Event.imencodeCall ext])
    | Except.ok (true, bytes) =>
      match env.rawWrite output_path bytes with
      | Except.error _ =>
        (false, [Event.imwriteCall, Event.imencodeCall ext, Event.rawWriteCall])
      | Except.ok _ =>
        (true, [Event.imwriteCall, Event.imencodeCall ext, Event.rawWriteCall])

/-- The `while True: ret, f = cap.read(); if not ret: break; last = f`
loop of lines 158–163: scan the stream, overwriting the single
last-seen-frame holder. -/
def scanLoop : List Frame → Option Frame → Option Frame
  | [], held => held
  | f :: rest, _ => scanLoop rest (some f)

/-- Lines 143–167 of the source: read the frame count, fail when it is
not positive, seek to `N - 1` and read once, and on a failed read rescan
the whole stream from position 0 keeping only the last frame seen. -/
def locate_last_frame (cap : Cap) : Except String Frame × List Event :=
  let total := cap.frameCount
  if total ≤ 0 then
    (Except.error "视频帧数为 0，可能是空视频或格式不支持", [Event.getFrameCount])
  else
    match cap.readAt (total - 1) with
    | some frame =>
      (Except.ok frame, [Event.getFrameCount, Event.seek (total - 1), Event.readFrame])
    | none =>
      let ev := [Event.getFrameCount, Event.seek (total - 1), Event.readFrame,
                 Event.seek 0] ++ List.replicate (cap.stream.length + 1) Event.readFrame
      match scanLoop cap.stream none with
      | none => (Except.error "无法读取视频帧", ev)
      | some f => (Except.ok f, ev)

/-- Lines 170–173 of the source: the explicit output path verbatim, else
`{video_directory}/{video_stem}_last_frame.png`. -/
def resolve_output_path (video_path : String) (output_path : Option String) : String :=
  match output_path with
  | some p => p
  | none =>
    pathJoin (pathParentStr video_path) (pathStem video_path ++ "_last_frame.png")

/-- Lines 131–184 of the source (`extract_last_frame`): existence check,
open, locate the last frame, resolve the output path, save; the handle is
released in the `finally` of the `try` block that begins only after the
`isOpened` check. -/
def extract_last_frame (env : Env) (video_path : String) (output_path : Option String) :
    Except PyErr String × List Event :=
  if env.pathExists video_path = false then
    (Except.error (PyErr.fileNotFound ("视频文件不存在: " ++ video_path)), [])
  else
    let opened := open_video_chinese_path env video_path
    if opened.1.isOpened = false then
      (Except.error (PyErr.valueError ("无法打开视频文件: " ++ video_path)), opened.2)
    else
      match locate_last_frame opened.1 with
      | (Except.error msg, ev) =>
        (Except.error (PyErr.valueError msg), opened.2 ++ ev ++ [Event.release])
      | (Except.ok frame, ev) =>
        let out := resolve_output_path video_path output_path
        let saved := save_image_chinese_path env frame out
        if saved.1 then
          (Except.ok out, opened.2 ++ ev ++ saved.2 ++ [Event.release])
        else
          (Except.error (PyErr.valueError ("无法保存图片到: " ++ out)),
           opened.2 ++ ev ++ saved.2 ++ [Event.release])

/-- Boolean prefix test on character lists. -/
def listStartsWith : List Char → List Char → Bool
  | [], _ => true
  | _ :: _, [] => false
  | a :: as, b :: bs => a == b && listStartsWith as bs

/-- The three message classes `main` can print for an error: `2` for the
unknown-error format, `0` for a file-not-found message, `1` otherwise. -/
def classify_message (s : String) : Nat :=
  if listStartsWith ("❌ 未知错误: ").data s.data then 2
  else if listStartsWith ("❌ 错误: 视频文件不存在").data s.data then 0
  else 1

/-- Category of an exception: `0` file-not-found, `1` value error,
`2` anything else. -/
def err_category : PyErr → Nat
  | PyErr.fileNotFound _ => 0
  | PyErr.valueError _ => 1
  | PyErr.other _ => 2

/-- Lines 199–210 of the source: exit code and printed message for each
outcome of `extract_last_frame`. -/
def format_result (r : Except PyErr String) : Nat × String :=
  match r with
  | Except.ok saved => (0, "✅ 最后一帧已成功保存到: " ++ saved)
  | Except.error (PyErr.fileNotFound m) => (1, "❌ 错误: " ++ m)
  | Except.error (PyErr.valueError m) => (1, "❌ 错误: " ++ m)
  | Except.error (PyErr.other m) => (1, "❌ 未知错误: " ++ m)

/-- Lines 187–210 of the source (`main`): `args` is `sys.argv[1:]`; with
no arguments print the usage text and exit 1, otherwise run the pipeline
on the first argument and the optional second argument. -/
def main_run (env : Env) (args : List String) : Nat × String :=
  match args with
  | [] => (1, "使用方法: python extract_last_frame.py <视频文件路径> [输出图片路径]")
  | vp :: rest => format_result (extract_last_frame env vp rest.head?).1

/-! Concrete environments used to instantiate the theorems. -/

/-- A sample decoded frame. -/
def frameA : Frame := ⟨[1, 2, 3]⟩

/-- A handle that opened normally: ten frames, seek-reads succeed. -/
def capGood : Cap :=
  { isOpened := true, frameCount := 10,
    readAt := fun _ => some frameA, stream := [frameA] }

/-- A handle that failed to open. -/
def capClosed : Cap :=
  { isOpened := false, frameCount := 0,
    readAt := fun _ => none, stream := [] }

/-- A handle with a single frame reachable by the seek path. -/
def capOne : Cap :=
  { isOpened := true, frameCount := 1,
    readAt := fun _ => some frameA, stream := [frameA] }

/-- Everything works: the file exists, the direct open succeeds, the
direct image write succeeds. -/
def envGood : Env :=
  { pathExists := fun _ => true,
    directOpen := fun _ => capGood,
    ffmpegOpen := fun _ => capClosed,
    shortPathAvail := false,
    shortPathOf := fun _ => none,
    imwrite := fun _ _ => Except.ok true,
    imencode := fun _ _ => Except.ok (true, [0]),
    rawWrite := fun _ _ => Except.ok () }

/-- The file exists but every opening strategy fails. -/
def envAllFail : Env :=
  { envGood with directOpen := fun _ => capClosed, ffmpegOpen := fun _ => capClosed }

/-- The input path does not exist. -/
def envNoFile : Env :=
  { envGood with pathExists := fun _ => false }

/-- A handle that opened but reports zero frames. -/
def capZero : Cap :=
  { isOpened := true, frameCount := 0,
    readAt := fun _ => none, stream := [] }

/-- A handle whose seek-read fails and whose stream is immediately empty. -/
def capEmptyScan : Cap :=
  { isOpened := true, frameCount := 5,
    readAt := fun _ => none, stream := [] }

/-- A handle whose seek-read fails but whose sequential scan yields frames. -/
def capScanOnly : Cap :=
  { isOpened := true, frameCount := 3,
    readAt := fun _ => none, stream := [⟨[7]⟩, ⟨[8]⟩, frameA] }

/-- The file exists and opens, but the video reports zero frames. -/
def envZero : Env :=
  { envGood with directOpen := fun _ => capZero }

/-- The file exists and opens, the seek-read fails, and the stream is empty. -/
def envEmptyScan : Env :=
  { envGood with directOpen := fun _ => capEmptyScan }

/-- The direct image write fails and the encoder recognises only `.png`,
so an unrecognised extension makes the fallback fail. -/
def envFallback : Env :=
  { envGood with
    imwrite := fun _ _ => Except.ok false,
    imencode := fun ext _ =>
      if ext = ".png" then Except.ok (true, [9]) else Except.ok (false, []) }

/-! Helper lemmas. -/

/-- Every event the opener records is an open attempt: it performs no
seek, read, write or release. -/
lemma open_trace_all_attempts (env : Env) (p : String) :
    ∀ e ∈ (open_video_chinese_path env p).2, ∃ n, e = Event.openAttempt n := by
  intro e he
  cases hd : (env.directOpen p).isOpened <;>
    cases hf : (env.ffmpegOpen p).isOpened <;>
    cases hs : env.shortPathAvail <;>
    rcases hsp : env.shortPathOf p with _ | sp <;>
    simp [open_video_chinese_path, hd, hf, hs, hsp] at he <;>
    first
      | exact ⟨_, rfl⟩
      | exact ⟨_, he⟩
      | (rcases he with h | h | h <;> exact ⟨_, h⟩)
      | (rcases he with h | h <;> exact ⟨_, h⟩)

/-- The scan loop holds exactly the last element of the stream (or keeps
its accumulator when the stream is empty). -/
lemma scanLoop_eq_getLast (l : List Frame) :
    ∀ acc : Option Frame, scanLoop l acc = l.getLast?.or acc := by
  induction l with
  | nil => intro acc; simp [scanLoop]
  | cons f rest ih =>
    intro acc
    have hstep : scanLoop (f :: rest) acc = scanLoop rest (some f) := rfl
    rw [hstep, ih (some f)]
    cases rest with
    | nil => simp
    | cons g gs =>
      rw [List.getLast?_cons_cons]
      obtain ⟨x, hx⟩ := Option.isSome_iff_exists.mp
        (List.getLast?_isSome.mpr (List.cons_ne_nil g gs))
      rw [hx]
      simp [Option.or]

/-- String concatenation concatenates the character data. -/
lemma strDataAppend (a b : String) : (a ++ b).data = a.data ++ b.data := rfl

/-- A prefix test against `a ++ b` only looks at `a` when the pattern is
no longer than `a`. -/
lemma listStartsWith_append_le (p a b : List Char) (h : p.length ≤ a.length) :
    listStartsWith p (a ++ b) = listStartsWith p a := by
  induction p generalizing a with
  | nil => simp [listStartsWith]
  | cons c cs ih =>
    cases a with
    | nil => simp at h
    | cons d ds =>
      have h' : cs.length ≤ ds.length := by simpa using h
      simp [listStartsWith, ih ds h']

/-- The messages the locator can fail with. -/
lemma locate_error_msgs (cap : Cap) (msg : String) (ev : List Event)
    (h : locate_last_frame cap = (Except.error msg, ev)) :
    msg = "视频帧数为 0，可能是空视频或格式不支持" ∨ msg = "无法读取视频帧" := by
  by_cases h0 : cap.frameCount ≤ 0
  · simp [locate_last_frame, h0] at h
    exact Or.inl h.1.symm
  · rcases hr : cap.readAt (cap.frameCount - 1) with _ | f
    · rcases hscan : scanLoop cap.stream none with _ | f2
      · simp [locate_last_frame, h0, hr, hscan] at h
        exact Or.inr h.1.symm
      · simp [locate_last_frame, h0, hr, hscan] at h
    · simp [locate_last_frame, h0, hr] at h

/-- Every error the pipeline can raise, by shape. -/
lemma extract_error_cases (env : Env) (vp : String) (out? : Option String) (e : PyErr)
    (h : (extract_last_frame env vp out?).1 = Except.error e) :
    e = PyErr.fileNotFound ("视频文件不存在: " ++ vp)
    ∨ e = PyErr.valueError ("无法打开视频文件: " ++ vp)
    ∨ e = PyErr.valueError "视频帧数为 0，可能是空视频或格式不支持"
    ∨ e = PyErr.valueError "无法读取视频帧"
    ∨ e = PyErr.valueError ("无法保存图片到: " ++ resolve_output_path vp out?) := by
  cases hpe : env.pathExists vp
  · simp [extract_last_frame, hpe] at h
    exact Or.inl h.symm
  · cases ho : (open_video_chinese_path env vp).1.isOpened
    · simp [extract_last_frame, hpe, ho] at h
      exact Or.inr (Or.inl h.symm)
    · rcases hl : locate_last_frame (open_video_chinese_path env vp).1 with ⟨res, ev⟩
      cases res with
      | error msg =>
        simp [extract_last_frame, hpe, ho, hl] at h
        rcases locate_error_msgs _ _ _ hl with hm | hm <;> rw [hm] at h
        · exact Or.inr (Or.inr (Or.inl h.symm))
        · exact Or.inr (Or.inr (Or.inr (Or.inl h.symm)))
      | ok frame =>
        by_cases hs :
            (save_image_chinese_path env frame (resolve_output_path vp out?)).1 = true
        · simp [extract_last_frame, hpe, ho, hl, hs] at h
        · simp [extract_last_frame, hpe, ho, hl, hs] at h
          exact Or.inr (Or.inr (Or.inr (Or.inr h.symm)))

/-- A file-not-found message is classified as category 0. -/
lemma classify_notfound (p : String) :
    classify_message ("❌ 错误: " ++ ("视频文件不存在: " ++ p)) = 0 := by
  have hdata : ("❌ 错误: " ++ ("视频文件不存在: " ++ p)).data
      = ("❌ 错误: 视频文件不存在: ").data ++ p.data := by
    rw [strDataAppend, strDataAppend, ← List.append_assoc]
    congr 1
  unfold classify_message
  rw [hdata, listStartsWith_append_le _ _ _ (by decide),
    listStartsWith_append_le _ _ _ (by decide)]
  decide

/-- An open-failure message is classified as category 1. -/
lemma classify_openfail (p : String) :
    classify_message ("❌ 错误: " ++ ("无法打开视频文件: " ++ p)) = 1 := by
  have hdata : ("❌ 错误: " ++ ("无法打开视频文件: " ++ p)).data
      = ("❌ 错误: 无法打开视频文件: ").data ++ p.data := by
    rw [strDataAppend, strDataAppend, ← List.append_assoc]
    congr 1
  unfold classify_message
  rw [hdata, listStartsWith_append_le _ _ _ (by decide),
    listStartsWith_append_le _ _ _ (by decide)]
  decide

/-- A save-failure message is classified as category 1. -/
lemma classify_savefail (p : String) :
    classify_message ("❌ 错误: " ++ ("无法保存图片到: " ++ p)) = 1 := by
  have hdata : ("❌ 错误: " ++ ("无法保存图片到: " ++ p)).data
      = ("❌ 错误: 无法保存图片到: ").data ++ p.data := by
    rw [strDataAppend, strDataAppend, ← List.append_assoc]
    congr 1
  unfold classify_message
  rw [hdata, listStartsWith_append_le _ _ _ (by decide),
    listStartsWith_append_le _ _ _ (by decide)]
  decide

/-- An unknown-error message is classified as category 2. -/
lemma classify_unknown (m : String) :
    classify_message ("❌ 未知错误: " ++ m) = 2 := by
  have hA : listStartsWith ("❌ 未知错误: ").data (("❌ 未知错误: ").data ++ m.data)
      = true := by
    rw [listStartsWith_append_le _ _ _ (le_refl _)]
    decide
  unfold classify_message
  rw [strDataAppend, hA]
  rfl

/-! Claim theorems. -/

/-- C1 (amended): once the opener's returned handle is confirmed open,
`release` appears in the call trace on every exit path of the pipeline,
normal return or any failure raised inside the `try` block. -/
theorem c1_release_after_open (env : Env) (vp : String) (out? : Option String)
    (h1 : env.pathExists vp = true)
    (h2 : (open_video_chinese_path env vp).1.isOpened = true) :
    Event.release ∈ (extract_last_frame env vp out?).2 := by
  rcases hl : locate_last_frame (open_video_chinese_path env vp).1 with ⟨res, ev⟩
  cases res with
  | error msg =>
    simp [extract_last_frame, h1, h2, hl]
  | ok frame =>
    by_cases hs :
        (save_image_chinese_path env frame (resolve_output_path vp out?)).1 = true
    · simp [extract_last_frame, h1, h2, hl, hs]
    · simp [extract_last_frame, h1, h2, hl, hs]

/-- C1 witness: in the fully successful run the trace contains the
release of the handle. -/
theorem c1_release_witness :
    Event.release ∈ (extract_last_frame envGood "video.mp4" none).2 :=
  c1_release_after_open envGood "video.mp4" none rfl rfl

/-- C1 counterexample: when every opening strategy fails, the pipeline
raises the uniform open error but the returned (unopened) handle is never
released — `release` is absent from the trace, contradicting the claim
that the handle is released on the `OpenError` path as well. -/
theorem c1_counterexample :
    (extract_last_frame envAllFail "v.mp4" none).1
      = Except.error (PyErr.valueError "无法打开视频文件: v.mp4")
    ∧ Event.release ∉ (extract_last_frame envAllFail "v.mp4" none).2 :=
  ⟨by decide, by decide⟩

/-- C6: for an input path that does not exist, the pipeline fails with
`FileNotFoundError` carrying the missing path and performs no library
call at all (empty trace, hence no decode attempt and no side effect). -/
theorem c6_missing_input (env : Env) (vp : String) (out? : Option String)
    (h : env.pathExists vp = false) :
    extract_last_frame env vp out?
      = (Except.error (PyErr.fileNotFound ("视频文件不存在: " ++ vp)), []) := by
  simp [extract_last_frame, h]

/-- C6 witness. -/
theorem c6_witness :
    extract_last_frame envNoFile "v.mp4" none
      = (Except.error (PyErr.fileNotFound ("视频文件不存在: " ++ "v.mp4")), []) :=
  c6_missing_input envNoFile "v.mp4" none rfl

/-- C9: when the input path exists but no opening strategy yields an open
handle, the failure surfaces as the open-failure `ValueError`, never as
`FileNotFoundError`. -/
theorem c9_exists_but_unopenable (env : Env) (vp : String) (out? : Option String)
    (h1 : env.pathExists vp = true)
    (h2 : (open_video_chinese_path env vp).1.isOpened = false) :
    (extract_last_frame env vp out?).1
      = Except.error (PyErr.valueError ("无法打开视频文件: " ++ vp)) := by
  simp [extract_last_frame, h1, h2]

/-- C9 witness. -/
theorem c9_witness :
    (extract_last_frame envAllFail "v.mp4" none).1
      = Except.error (PyErr.valueError ("无法打开视频文件: " ++ "v.mp4")) :=
  c9_exists_but_unopenable envAllFail "v.mp4" none rfl rfl

/-- C3: for an open handle with positive frame count `N` (including
`N = 1`), the locator seeks to `N - 1` and performs exactly one read;
when that read yields a frame it is returned with no rescan, and only
when it yields nothing does the locator reset the cursor to 0, scan the
whole stream into the single last-seen-frame holder, and return the held
frame — which is the last frame of the stream — at end of stream. -/
theorem c3_frame_locator (cap : Cap) (h : 0 < cap.frameCount) :
    (∀ f, cap.readAt (cap.frameCount - 1) = some f →
      locate_last_frame cap
        = (Except.ok f,
           [Event.getFrameCount, Event.seek (cap.frameCount - 1), Event.readFrame]))
    ∧ (cap.readAt (cap.frameCount - 1) = none →
      (locate_last_frame cap).2
        = [Event.getFrameCount, Event.seek (cap.frameCount - 1), Event.readFrame,
           Event.seek 0] ++ List.replicate (cap.stream.length + 1) Event.readFrame
      ∧ (∀ f, scanLoop cap.stream none = some f →
          (locate_last_frame cap).1 = Except.ok f)
      ∧ scanLoop cap.stream none = cap.stream.getLast?) := by
  have h0 : ¬ cap.frameCount ≤ 0 := by omega
  constructor
  · intro f hf
    simp [locate_last_frame, h0, hf]
  · intro hn
    refine ⟨?_, ?_, ?_⟩
    · rcases hscan : scanLoop cap.stream none with _ | f <;>
        simp [locate_last_frame, h0, hn, hscan]
    · intro f hscan
      simp [locate_last_frame, h0, hn, hscan]
    · rw [scanLoop_eq_getLast]
      cases cap.stream.getLast? <;> simp [Option.or]

/-- C3 witness: a one-frame video takes the seek path (seek to 0, one
read) and returns its frame. -/
theorem c3_witness :
    locate_last_frame capOne
      = (Except.ok frameA, [Event.getFrameCount, Event.seek 0, Event.readFrame]) :=
  (c3_frame_locator capOne (by decide)).1 frameA rfl

/-- C4: with an open handle, a non-positive reported frame count fails
with the empty/unreadable `ReadError` before any seek and without any
write call; and when the seek-read fails and the fallback scan decodes
nothing, the pipeline fails with the read `ReadError`, again without any
write call — no default or blank image is produced. -/
theorem c4_read_errors (env : Env) (vp : String) (out? : Option String) :
    (env.pathExists vp = true →
      (open_video_chinese_path env vp).1.isOpened = true →
      (open_video_chinese_path env vp).1.frameCount ≤ 0 →
      (extract_last_frame env vp out?).1
          = Except.error (PyErr.valueError "视频帧数为 0，可能是空视频或格式不支持")
        ∧ (∀ i, Event.seek i ∉ (extract_last_frame env vp out?).2)
        ∧ Event.imwriteCall ∉ (extract_last_frame env vp out?).2
        ∧ Event.rawWriteCall ∉ (extract_last_frame env vp out?).2)
    ∧ (env.pathExists vp = true →
      (open_video_chinese_path env vp).1.isOpened = true →
      0 < (open_video_chinese_path env vp).1.frameCount →
      (open_video_chinese_path env vp).1.readAt
          ((open_video_chinese_path env vp).1.frameCount - 1) = none →
      (open_video_chinese_path env vp).1.stream = [] →
      (extract_last_frame env vp out?).1
          = Except.error (PyErr.valueError "无法读取视频帧")
        ∧ Event.imwriteCall ∉ (extract_last_frame env vp out?).2
        ∧ Event.rawWriteCall ∉ (extract_last_frame env vp out?).2) := by
  constructor
  · intro h1 h2 h3
    refine ⟨?_, ?_, ?_, ?_⟩
    · simp [extract_last_frame, h1, h2, locate_last_frame, h3]
    · intro i hmem
      simp [extract_last_frame, h1, h2, locate_last_frame, h3] at hmem
      obtain ⟨n, hn⟩ := open_trace_all_attempts env vp _ hmem
      exact Event.noConfusion hn
    · intro hmem
      simp [extract_last_frame, h1, h2, locate_last_frame, h3] at hmem
      obtain ⟨n, hn⟩ := open_trace_all_attempts env vp _ hmem
      exact Event.noConfusion hn
    · intro hmem
      simp [extract_last_frame, h1, h2, locate_last_frame, h3] at hmem
      obtain ⟨n, hn⟩ := open_trace_all_attempts env vp _ hmem
      exact Event.noConfusion hn
  · intro h1 h2 h3 h4 h5
    have h0 : ¬ (open_video_chinese_path env vp).1.frameCount ≤ 0 := by omega
    refine ⟨?_, ?_, ?_⟩
    · simp [extract_last_frame, h1, h2, locate_last_frame, h0, h4, h5, scanLoop]
    · intro hmem
      simp [extract_last_frame, h1, h2, locate_last_frame, h0, h4, h5, scanLoop] at hmem
      obtain ⟨n, hn⟩ := open_trace_all_attempts env vp _ hmem
      exact Event.noConfusion hn
    · intro hmem
      simp [extract_last_frame, h1, h2, locate_last_frame, h0, h4, h5, scanLoop] at hmem
      obtain ⟨n, hn⟩ := open_trace_all_attempts env vp _ hmem
      exact Event.noConfusion hn

/-- C4 witness: a zero-frame video and an empty-scan video both end in
the corresponding read errors with no write call in the trace. -/
theorem c4_witness :
    ((extract_last_frame envZero "v.mp4" none).1
        = Except.error (PyErr.valueError "视频帧数为 0，可能是空视频或格式不支持")
      ∧ Event.imwriteCall ∉ (extract_last_frame envZero "v.mp4" none).2)
    ∧ ((extract_last_frame envEmptyScan "v.mp4" none).1
        = Except.error (PyErr.valueError "无法读取视频帧")
      ∧ Event.rawWriteCall ∉ (extract_last_frame envEmptyScan "v.mp4" none).2) := by
  have h1 := (c4_read_errors envZero "v.mp4" none).1 rfl rfl (by decide)
  have h2 := (c4_read_errors envEmptyScan "v.mp4" none).2 rfl rfl (by decide) rfl rfl
  exact ⟨⟨h1.1, h1.2.2.1⟩, ⟨h2.1, h2.2.2⟩⟩

/-- C5: the opener tries the strategies in order — direct open, open with
the explicitly requested FFMPEG backend, then (only when the platform
mechanism is available) the short-path alias — returning the first open
handle with exactly the attempts made so far in the trace; when no
strategy succeeds the returned handle is unopened, and the caller then
raises the uniform open-failure error. -/
theorem c5_opener_chain (env : Env) (p : String) :
    ((env.directOpen p).isOpened = true →
      open_video_chinese_path env p = (env.directOpen p, [Event.openAttempt 0]))
    ∧ ((env.directOpen p).isOpened = false →
      (env.ffmpegOpen p).isOpened = true →
      open_video_chinese_path env p
        = (env.ffmpegOpen p, [Event.openAttempt 0, Event.openAttempt 1]))
    ∧ (∀ sp, (env.directOpen p).isOpened = false →
      (env.ffmpegOpen p).isOpened = false →
      env.shortPathAvail = true →
      env.shortPathOf p = some sp →
      open_video_chinese_path env p
        = (env.directOpen sp,
           [Event.openAttempt 0, Event.openAttempt 1, Event.openAttempt 2]))
    ∧ ((env.directOpen p).isOpened = false →
      (env.ffmpegOpen p).isOpened = false →
      env.shortPathAvail = false →
      open_video_chinese_path env p
        = (env.ffmpegOpen p, [Event.openAttempt 0, Event.openAttempt 1]))
    ∧ ((env.directOpen p).isOpened = false →
      (env.ffmpegOpen p).isOpened = false →
      (∀ sp, env.shortPathOf p = some sp → (env.directOpen sp).isOpened = false) →
      (open_video_chinese_path env p).1.isOpened = false)
    ∧ ((open_video_chinese_path env p).1.isOpened = false →
      env.pathExists p = true →
      (extract_last_frame env p none).1
        = Except.error (PyErr.valueError ("无法打开视频文件: " ++ p))) := by
  refine ⟨?_, ?_, ?_, ?_, ?_, ?_⟩
  · intro hd
    simp [open_video_chinese_path, hd]
  · intro hd hf
    simp [open_video_chinese_path, hd, hf]
  · intro sp hd hf hs hsp
    simp [open_video_chinese_path, hd, hf, hs, hsp]
  · intro hd hf hs
    simp [open_video_chinese_path, hd, hf, hs]
  · intro hd hf hall
    cases hs : env.shortPathAvail
    · simp [open_video_chinese_path, hd, hf, hs]
    · rcases hsp : env.shortPathOf p with _ | sp
      · simp [open_video_chinese_path, hd, hf, hs, hsp]
      · simp [open_video_chinese_path, hd, hf, hs, hsp]
        exact hall sp hsp
  · intro hres hpe
    simp [extract_last_frame, hpe, hres]

/-- C5 witness: with every strategy failing, the returned handle is
unopened and the pipeline raises the uniform open error. -/
theorem c5_witness :
    (open_video_chinese_path envAllFail "v.mp4").1.isOpened = false
    ∧ (extract_last_frame envAllFail "v.mp4" none).1
        = Except.error (PyErr.valueError ("无法打开视频文件: " ++ "v.mp4")) := by
  have h := c5_opener_chain envAllFail "v.mp4"
  have hres := h.2.2.2.2.1 rfl rfl (fun _ hsp => Option.noConfusion hsp)
  exact ⟨hres, h.2.2.2.2.2 hres rfl⟩

/-- C7: whenever the pipeline succeeds, the path it returns is the
resolved output path — the explicit output path verbatim when one was
given, and `{video_directory}/{video_stem}_last_frame.png` otherwise. -/
theorem c7_output_path (env : Env) (vp : String) (out? : Option String) (r : String)
    (h : (extract_last_frame env vp out?).1 = Except.ok r) :
    r = resolve_output_path vp out?
    ∧ (∀ o, out? = some o → r = o)
    ∧ (out? = none →
        r = pathJoin (pathParentStr vp) (pathStem vp ++ "_last_frame.png")) := by
  have hr : r = resolve_output_path vp out? := by
    cases hpe : env.pathExists vp
    · simp [extract_last_frame, hpe] at h
    · cases ho : (open_video_chinese_path env vp).1.isOpened
      · simp [extract_last_frame, hpe, ho] at h
      · rcases hl : locate_last_frame (open_video_chinese_path env vp).1 with ⟨res, ev⟩
        cases res with
        | error msg => simp [extract_last_frame, hpe, ho, hl] at h
        | ok frame =>
          by_cases hs :
              (save_image_chinese_path env frame (resolve_output_path vp out?)).1 = true
          · simp [extract_last_frame, hpe, ho, hl, hs] at h
            exact h.symm
          · simp [extract_last_frame, hpe, ho, hl, hs] at h
  refine ⟨hr, ?_, ?_⟩
  · intro o hout
    rw [hr, hout]
    rfl
  · intro hout
    rw [hr, hout]
    rfl

/-- C7 witness: `video.mp4` with no output argument resolves to
`video_last_frame.png` in the same (current) directory. -/
theorem c7_witness :
    "video_last_frame.png" = resolve_output_path "video.mp4" none
    ∧ "video_last_frame.png"
        = pathJoin (pathParentStr "video.mp4") (pathStem "video.mp4" ++ "_last_frame.png") := by
  have h := c7_output_path envGood "video.mp4" none "video_last_frame.png" (by decide)
  exact ⟨h.1, h.2.2 rfl⟩

/-- C2 (amended): whenever the image writer's fallback runs, the encoder
is called with the format chosen from the output path's lowercased
extension; PNG is the default only when the path has no extension, and a
non-empty extension — recognised or not — is passed through unchanged. -/
theorem c2_fallback_format (env : Env) (image : Frame) (output_path : String)
    (h : env.imwrite output_path image ≠ Except.ok true) :
    Event.imencodeCall (chooseExt output_path)
        ∈ (save_image_chinese_path env image output_path).2
    ∧ (pathSuffix output_path = "" → chooseExt output_path = ".png")
    ∧ (strLower (pathSuffix output_path) ≠ "" →
        chooseExt output_path = strLower (pathSuffix output_path)) := by
  refine ⟨?_, ?_, ?_⟩
  · rcases hw : env.imwrite output_path image with u | b
    · rcases he : env.imencode (chooseExt output_path) image with u2 | ⟨b2, bytes⟩
      · simp [save_image_chinese_path, hw, he]
      · cases b2
        · simp [save_image_chinese_path, hw, he]
        · rcases hr : env.rawWrite output_path bytes with u3 | u4 <;>
            simp [save_image_chinese_path, hw, he, hr]
    · cases b
      · rcases he : env.imencode (chooseExt output_path) image with u2 | ⟨b2, bytes⟩
        · simp [save_image_chinese_path, hw, he]
        · cases b2
          · simp [save_image_chinese_path, hw, he]
          · rcases hr : env.rawWrite output_path bytes with u3 | u4 <;>
              simp [save_image_chinese_path, hw, he, hr]
      · exact absurd hw h
  · intro hsuf
    simp [chooseExt, hsuf, strLower]
  · intro hne
    simp [chooseExt, hne]

/-- C2 witness: for a path with no extension the fallback encodes as PNG. -/
theorem c2_witness :
    Event.imencodeCall (chooseExt "out")
        ∈ (save_image_chinese_path envFallback frameA "out").2
    ∧ chooseExt "out" = ".png" :=
  ⟨(c2_fallback_format envFallback frameA "out" (by decide)).1,
   (c2_fallback_format envFallback frameA "out" (by decide)).2.1 rfl⟩

/-- C2 counterexample: for the unrecognised extension `.xyz` the fallback
encodes with `.xyz`, not with the claimed PNG default, and the write
fails instead of falling back to PNG. -/
theorem c2_counterexample :
    save_image_chinese_path envFallback frameA "out.xyz"
      = (false, [Event.imwriteCall, Event.imencodeCall ".xyz"])
    ∧ chooseExt "out.xyz" = ".xyz"
    ∧ (".xyz" : String) ≠ ".png" :=
  ⟨by decide, by decide, by decide⟩

/-- C10: the image writer is total and returns `true` exactly when a
write completed — either the direct library write reported success, or
the encode succeeded and the raw byte write succeeded; every failure or
exception of the direct write, the encode, or the raw write yields the
return value `false`. -/
theorem c10_writer_total (env : Env) (image : Frame) (output_path : String) :
    (save_image_chinese_path env image output_path).1 = true ↔
      (env.imwrite output_path image = Except.ok true
        ∨ ∃ bytes, env.imencode (chooseExt output_path) image = Except.ok (true, bytes)
            ∧ env.rawWrite output_path bytes = Except.ok ()) := by
  rcases hw : env.imwrite output_path image with u | b
  · rcases he : env.imencode (chooseExt output_path) image with u2 | ⟨b2, bytes⟩
    · simp [save_image_chinese_path, hw, he]
    · cases b2
      · simp [save_image_chinese_path, hw, he]
      · rcases hr : env.rawWrite output_path bytes with u3 | u4 <;>
          simp [save_image_chinese_path, hw, he, hr]
  · cases b
    · rcases he : env.imencode (chooseExt output_path) image with u2 | ⟨b2, bytes⟩
      · simp [save_image_chinese_path, hw, he]
      · cases b2
        · simp [save_image_chinese_path, hw, he]
        · rcases hr : env.rawWrite output_path bytes with u3 | u4 <;>
            simp [save_image_chinese_path, hw, he, hr]
    · simp [save_image_chinese_path, hw]

/-- C8: the entry point exits 0 on success printing the resolved output
path; on any failure it exits 1, and the printed message classifies the
failure correctly into file-not-found (0), value/processing error (1),
or unknown error (2). -/
theorem c8_cli_exit (env : Env) (vp : String) (rest : List String) :
    (∀ r, (extract_last_frame env vp rest.head?).1 = Except.ok r →
      main_run env (vp :: rest) = (0, "✅ 最后一帧已成功保存到: " ++ r))
    ∧ (∀ e, (extract_last_frame env vp rest.head?).1 = Except.error e →
      (main_run env (vp :: rest)).1 = 1
      ∧ classify_message (main_run env (vp :: rest)).2 = err_category e)
    ∧ (∀ m, format_result (Except.error (PyErr.other m)) = (1, "❌ 未知错误: " ++ m)
      ∧ classify_message ("❌ 未知错误: " ++ m) = 2) := by
  refine ⟨?_, ?_, ?_⟩
  · intro r h
    simp [main_run, h, format_result]
  · intro e h
    have hmain : main_run env (vp :: rest) = format_result (Except.error e) := by
      simp [main_run, h]
    rcases extract_error_cases env vp rest.head? e h with h5 | h5 | h5 | h5 | h5 <;>
      subst h5 <;> rw [hmain] <;> refine ⟨rfl, ?_⟩
    · exact classify_notfound vp
    · exact classify_openfail vp
    · decide
    · decide
    · exact classify_savefail (resolve_output_path vp rest.head?)
  · intro m
    exact ⟨rfl, classify_unknown m⟩

/-- C8 witness: a successful run exits 0 printing the resolved path; a
missing-file run exits 1 with a message classified as file-not-found. -/
theorem c8_witness :
    main_run envGood ["video.mp4"]
      = (0, "✅ 最后一帧已成功保存到: " ++ "video_last_frame.png")
    ∧ (main_run envNoFile ["v.mp4"]).1 = 1
    ∧ classify_message (main_run envNoFile ["v.mp4"]).2
        = err_category (PyErr.fileNotFound ("视频文件不存在: " ++ "v.mp4")) := by
  refine ⟨(c8_cli_exit envGood "video.mp4" []).1 "video_last_frame.png" (by decide),
    ?_, ?_⟩
  · exact ((c8_cli_exit envNoFile "v.mp4" []).2.1
      (PyErr.fileNotFound ("视频文件不存在: " ++ "v.mp4")) (by decide)).1
  · exact ((c8_cli_exit envNoFile "v.mp4" []).2.1
      (PyErr.fileNotFound ("视频文件不存在: " ++ "v.mp4")) (by decide)).2
